import Mathlib

/-!
Verification of the WareBotFrontend client-side state reconciliation layer.

The development shallowly embeds the TypeScript source:

* the MapContext store (src/context/MapContext.tsx, the EntityStore of the
  spec): keyed collections of tasks, shelves and robots with the patch
  operations setShelfCurrent, setRobotPosition, updateTaskStatus, setShelf
  and the bulk-replace operations setTasks, setShelves, setRobots;
* the Shelves page WebSocket merge handlers (shelf_update spread merge and
  shelf_location_update field copy);
* the telemetry merge of the Robots page and the sanitizeDoc numeric
  coercion of src/services/api.ts, over an explicit model of loosely typed
  JavaScript values (numbers, strings, null, NaN);
* the callback dispatch of src/services/websocket.ts (invokeCallbacks and
  the connectWebSocket singleton);
* the reconnect backoff of useTaskSocket (src/hooks/useData.ts) and the
  isDifferent / Restore affordance logic of ShelfDetailsPanel.tsx.

JavaScript Map objects are modelled as insertion-ordered association lists
with JS Map set/get semantics; coordinates and telemetry numbers are
modelled as rationals, with NaN represented explicitly where the JS
Number coercion can produce it.
-/

/-- Model of a loosely typed inbound JSON value as it reaches the client
handlers: a finite number, a string, or null. JSON has no undefined, so a
missing object member is modelled by Option none at the use site. -/
inductive Jsonic where
  | jnum (q : ℚ)
  | jstr (s : String)
  | jnull
deriving DecidableEq, Repr

/-- Model of a JavaScript number that may be NaN: none is NaN, some q is
the finite number q. -/
abbrev JsNumber := Option ℚ

/-- Model of the JS Number() coercion on digit strings: a nonempty string
of decimal digits parses to its value, anything else is NaN. This
under-approximates the full JS grammar (signs, decimals, exponents), which
the claims never exercise; the cases used are numeric strings and
non-numeric strings such as "abc". -/
def parseDigits (s : String) : Option ℚ :=
  if s.length ≠ 0 ∧ s.toList.all Char.isDigit then
    some ((s.toList.foldl (fun a c => 10 * a + (c.toNat - 48)) 0 : ℕ) : ℚ)
  else none

/-- Model of the JS Number() coercion on a Jsonic value: numbers pass
through, strings parse or give NaN, null gives 0. -/
def jsNumber : Jsonic → JsNumber
  | .jnum q => some q
  | .jstr s => parseDigits s
  | .jnull => some 0

/-- Truthiness of a Jsonic value, as JS if-conditions evaluate it. -/
def jsTruthy : Jsonic → Bool
  | .jnum q => q ≠ 0
  | .jstr s => s ≠ ""
  | .jnull => false

/-- Model of JS String() on a Jsonic value; rationals print in Lean
notation, which differs from JS float formatting only on non-integers,
never reached by the claims. -/
def jsToString : Jsonic → String
  | .jnum q => toString q
  | .jstr s => s
  | .jnull => "null"

/-- Insertion-ordered association list modelling a JS Map with string
keys. -/
abbrev StrMap (α : Type) := List (String × α)

/-- Model of JS Map.get: first entry with the key, by structural
recursion over the entry list. -/
def mget {α : Type} : StrMap α → String → Option α
  | [], _ => none
  | (k₁, v₁) :: rest, k => if k₁ = k then some v₁ else mget rest k

/-- Model of JS Map.set: replaces the value in place at an existing key,
otherwise appends the new entry at the end, as JS Maps do. -/
def mset {α : Type} : StrMap α → String → α → StrMap α
  | [], k, v => [(k, v)]
  | (k₁, v₁) :: rest, k, v =>
    if k₁ = k then (k, v) :: rest else (k₁, v₁) :: mset rest k v

/-- Coordinates record of src/types/map.ts: x, y and an optional yaw. -/
structure Coordinates where
  x : ℚ
  y : ℚ
  yaw : Option ℚ
deriving DecidableEq, Repr

/-- ShelfMap record of src/types/map.ts: the map-view shelf with the two
independent coordinate pairs. The location and status enums are carried as
strings, as the MapContext setter casts them. -/
structure ShelfMap where
  id : String
  warehouse_id : String
  storage : Coordinates
  current : Coordinates
  location_status : String
  available : Bool
  status : String
deriving DecidableEq, Repr

/-- Robot record of src/types/map.ts. -/
structure RobotMap where
  id : String
  x : ℚ
  y : ℚ
  status : Option String
  battery : Option ℚ
  timestamp : Option ℚ
deriving DecidableEq, Repr

/-- Shelf reference embedded in a TaskMapView. -/
structure TaskShelfRef where
  id : String
  storage : Coordinates
  current : Coordinates
deriving DecidableEq, Repr

/-- Drop zone reference embedded in a TaskMapView. -/
structure DropZoneRef where
  id : String
  x : ℚ
  y : ℚ
  name : Option String
deriving DecidableEq, Repr

/-- TaskMapView record of src/types/map.ts. -/
structure TaskMapView where
  task_id : String
  status : String
  task_type : String
  robot : RobotMap
  shelf : TaskShelfRef
  drop_zone : Option DropZoneRef
  priority : Option ℚ
  created_at : Option String
  updated_at : Option String
deriving DecidableEq, Repr

/-- MapContext updateTaskStatus: patches the status of an existing task;
an unknown task id returns the previous map unchanged. -/
def updateTaskStatus (prev : StrMap TaskMapView) (taskId : String)
    (status : String) : StrMap TaskMapView :=
  match mget prev taskId with
  | none => prev
  | some task => mset prev taskId { task with status := status }

/-- MapContext setShelf: inserts or replaces the record keyed by the shelf
id. -/
def setShelf (prev : StrMap ShelfMap) (shelf : ShelfMap) : StrMap ShelfMap :=
  mset prev shelf.id shelf

/-- MapContext setShelfCurrent: updates the current position and location
status of an existing shelf, preserving the current yaw; the storage field
is not touched, and an unknown shelf id returns the previous map
unchanged. -/
def setShelfCurrent (prev : StrMap ShelfMap) (shelfId : String) (x y : ℚ)
    (locationStatus : String) : StrMap ShelfMap :=
  match mget prev shelfId with
  | none => prev
  | some shelf =>
    mset prev shelfId
      { shelf with
        current := ⟨x, y, shelf.current.yaw⟩
        location_status := locationStatus }

/-- MapContext setRobotPosition: patches x and y of an existing robot; an
unknown robot id returns the previous map unchanged. -/
def setRobotPosition (prev : StrMap RobotMap) (robotId : String) (x y : ℚ) :
    StrMap RobotMap :=
  match mget prev robotId with
  | none => prev
  | some robot => mset prev robotId { robot with x := x, y := y }

/-- Builds a fresh JS Map keyed by the given function, as the bulk setters
of MapContext do with forEach over a new Map. -/
def mapFromList {α : Type} (key : α → String) (l : List α) : StrMap α :=
  l.foldl (fun m a => mset m (key a) a) []

/-- MapContext setTasks: replaces the whole task collection with a map
built from the snapshot list; the previous state is discarded. -/
def setTasks (_prev : StrMap TaskMapView) (newTasks : List TaskMapView) :
    StrMap TaskMapView :=
  mapFromList (fun t => t.task_id) newTasks

/-- MapContext setShelves: replaces the whole shelf collection. -/
def setShelves (_prev : StrMap ShelfMap) (newShelves : List ShelfMap) :
    StrMap ShelfMap :=
  mapFromList (fun s => s.id) newShelves

/-- MapContext setRobots: replaces the whole robot collection. -/
def setRobots (_prev : StrMap RobotMap) (newRobots : List RobotMap) :
    StrMap RobotMap :=
  mapFromList (fun r => r.id) newRobots

/-- Concrete store for the literal position-update scenario: shelf S1 at
storage and current 100,150 with status STORED, next to an unrelated shelf
S2. -/
def scenarioShelfS1 : ShelfMap :=
  { id := "S1"
    warehouse_id := "W1"
    storage := ⟨100, 150, none⟩
    current := ⟨100, 150, none⟩
    location_status := "STORED"
    available := true
    status := "IDLE" }

/-- Second, unrelated shelf used to check that setShelfCurrent leaves other
records untouched. -/
def scenarioShelfS2 : ShelfMap :=
  { id := "S2"
    warehouse_id := "W1"
    storage := ⟨7, 8, some 1⟩
    current := ⟨9, 10, some 2⟩
    location_status := "IN_TRANSIT"
    available := false
    status := "BUSY" }

/-- Store holding the two scenario shelves. -/
def scenarioStore : StrMap ShelfMap :=
  [("S1", scenarioShelfS1), ("S2", scenarioShelfS2)]

/-- Store after the scenario update. -/
def scenarioStoreAfter : StrMap ShelfMap :=
  setShelfCurrent scenarioStore "S1" 500 500 "AT_DROP_ZONE"

/-- C2: in the literal position-update scenario, setShelfCurrent moves S1
to current 500,500 with status AT_DROP_ZONE, leaves the S1 storage
coordinates at 100,150, and leaves the unrelated shelf S2 exactly as it
was. -/
theorem setShelfCurrent_scenario_literal :
    (mget scenarioStoreAfter "S1").map (fun s => s.storage) =
      some ⟨100, 150, none⟩ ∧
    (mget scenarioStoreAfter "S1").map (fun s => s.current) =
      some ⟨500, 500, none⟩ ∧
    (mget scenarioStoreAfter "S1").map (fun s => s.location_status) =
      some "AT_DROP_ZONE" ∧
    mget scenarioStoreAfter "S2" = some scenarioShelfS2 := by
  refine ⟨rfl, rfl, rfl, rfl⟩

/-- C4: a patch operation addressed to an id with no existing record is a
no-op: setShelfCurrent, setRobotPosition and updateTaskStatus each return
the previous store unchanged when the id is absent, so no record is
created and none is altered. -/
theorem unknown_id_patch_is_noop
    (shelves : StrMap ShelfMap) (robots : StrMap RobotMap)
    (tasks : StrMap TaskMapView)
    (sid rid tid : String) (sx sy rx ry : ℚ) (ls st : String)
    (hs : mget shelves sid = none) (hr : mget robots rid = none)
    (ht : mget tasks tid = none) :
    setShelfCurrent shelves sid sx sy ls = shelves ∧
    setRobotPosition robots rid rx ry = robots ∧
    updateTaskStatus tasks tid st = tasks := by
  refine ⟨?_, ?_, ?_⟩
  · unfold setShelfCurrent; rw [hs]
  · unfold setRobotPosition; rw [hr]
  · unfold updateTaskStatus; rw [ht]

/-- Witness for C4 on concrete inputs: the empty stores have no record for
the ids, and all three patches leave them unchanged. -/
theorem unknown_id_patch_is_noop_witness :
    setShelfCurrent [] "S9" 1 2 "STORED" = [] ∧
    setRobotPosition [] "r99" 3 4 = [] ∧
    updateTaskStatus [] "t9" "PENDING" = [] :=
  unknown_id_patch_is_noop [] [] [] "S9" "r99" "t9" 1 2 3 4 "STORED" "PENDING"
    rfl rfl rfl

/-- C6: the bulk-replace operations ignore the previous collection and
build the new one purely from the snapshot list, so applying the same
snapshot twice yields exactly the store produced by applying it once. -/
theorem bulk_replace_idempotent
    (prevT : StrMap TaskMapView) (prevS : StrMap ShelfMap)
    (prevR : StrMap RobotMap) (lt : List TaskMapView)
    (ls : List ShelfMap) (lr : List RobotMap) :
    setTasks (setTasks prevT lt) lt = setTasks prevT lt ∧
    setShelves (setShelves prevS ls) ls = setShelves prevS ls ∧
    setRobots (setRobots prevR lr) lr = setRobots prevR lr :=
  ⟨rfl, rfl, rfl⟩


/-- Shelf entity of src/types/index.ts as used by the Shelves page: flat
record with independent current and storage coordinate fields. The source
name Shelf collides with a Mathlib structure, so the embedding calls it
ShelfEntity. The nested products relation is omitted as display data never
read or written by the merge handlers. -/
structure ShelfEntity where
  id : String
  warehouse_id : String
  level : ℚ
  current_x : Option ℚ
  current_y : Option ℚ
  current_yaw : Option ℚ
  x : Option ℚ
  y : Option ℚ
  yaw : Option ℚ
  storage_x : ℚ
  storage_y : ℚ
  storage_yaw : Option ℚ
  location_status : Option String
  last_task_id : Option String
  available : Bool
  status : String
  april_tag_url : Option String
  april_tag_id : Option ℚ
  deleted : Option Bool
  created_at : Option String
  updated_at : Option String
deriving DecidableEq, Repr

/-- Inbound shelf_update payload for the Shelves page handler. Each field
is Option: some v means the JSON payload carries the member with value v,
none means the member is absent. A present member overrides the shelf
field in the spread merge. -/
structure ShelfUpdateMsg where
  id : Option String := none
  warehouse_id : Option String := none
  level : Option ℚ := none
  current_x : Option ℚ := none
  current_y : Option ℚ := none
  current_yaw : Option ℚ := none
  x : Option ℚ := none
  y : Option ℚ := none
  yaw : Option ℚ := none
  storage_x : Option ℚ := none
  storage_y : Option ℚ := none
  storage_yaw : Option ℚ := none
  location_status : Option String := none
  last_task_id : Option String := none
  available : Option Bool := none
  status : Option String := none
  april_tag_url : Option String := none
  april_tag_id : Option ℚ := none
  deleted : Option Bool := none
  created_at : Option String := none
  updated_at : Option String := none
deriving DecidableEq, Repr

/-- Spread merge of a shelf_update payload onto a shelf record, modelling
the JS object spread of s then data: every member present in the payload
overrides the corresponding shelf field, absent members leave it. -/
def spreadShelf (s : ShelfEntity) (d : ShelfUpdateMsg) : ShelfEntity :=
  { id := d.id.getD s.id
    warehouse_id := d.warehouse_id.getD s.warehouse_id
    level := d.level.getD s.level
    current_x := (d.current_x.map some).getD s.current_x
    current_y := (d.current_y.map some).getD s.current_y
    current_yaw := (d.current_yaw.map some).getD s.current_yaw
    x := (d.x.map some).getD s.x
    y := (d.y.map some).getD s.y
    yaw := (d.yaw.map some).getD s.yaw
    storage_x := d.storage_x.getD s.storage_x
    storage_y := d.storage_y.getD s.storage_y
    storage_yaw := (d.storage_yaw.map some).getD s.storage_yaw
    location_status := (d.location_status.map some).getD s.location_status
    last_task_id := (d.last_task_id.map some).getD s.last_task_id
    available := d.available.getD s.available
    status := d.status.getD s.status
    april_tag_url := (d.april_tag_url.map some).getD s.april_tag_url
    april_tag_id := (d.april_tag_id.map some).getD s.april_tag_id
    deleted := (d.deleted.map some).getD s.deleted
    created_at := (d.created_at.map some).getD s.created_at
    updated_at := (d.updated_at.map some).getD s.updated_at }

/-- Shelves page shelf_update handler: maps over the shelf list and spread
merges the payload onto the record whose id strictly equals the payload
id. -/
def shelfUpdateHandler (prev : List ShelfEntity) (d : ShelfUpdateMsg) :
    List ShelfEntity :=
  prev.map (fun s => if d.id = some s.id then spreadShelf s d else s)

/-- Inbound shelf_location_update payload: id plus the three current
coordinates the Shelves page handler reads. -/
structure ShelfLocMsg where
  id : Option String := none
  current_x : Option ℚ := none
  current_y : Option ℚ := none
  current_yaw : Option ℚ := none
deriving DecidableEq, Repr

/-- Shelves page shelf_location_update handler: on the matching record it
assigns exactly the current_x, current_y and current_yaw payload members,
including assigning undefined when a member is absent; the storage fields
are never mentioned. The mirror update of the open detail modal is display
state outside the list. -/
def shelfLocationUpdateHandler (prev : List ShelfEntity) (d : ShelfLocMsg) :
    List ShelfEntity :=
  prev.map (fun s =>
    if d.id = some s.id then
      { s with
        current_x := d.current_x
        current_y := d.current_y
        current_yaw := d.current_yaw }
    else s)

/-- Combined client shelf state targeted by the three update paths of
claim C1: the MapContext shelf map and the Shelves page shelf list. -/
structure ShelvesClientState where
  mapShelves : StrMap ShelfMap
  pageShelves : List ShelfEntity
deriving DecidableEq, Repr

/-- One telemetry, poll or push update applied to a shelf, as enumerated by
claim C1: a setShelfCurrent call on the MapContext store, a shelf_update
spread merge, or a shelf_location_update merge on the Shelves page list. -/
inductive ShelfEvent where
  | setCurrent (shelfId : String) (x y : ℚ) (locationStatus : String)
  | pushShelfUpdate (d : ShelfUpdateMsg)
  | pushShelfLocationUpdate (d : ShelfLocMsg)
deriving DecidableEq, Repr

/-- Applies one shelf update to the combined client state. -/
def applyShelfEvent (st : ShelvesClientState) : ShelfEvent →
    ShelvesClientState
  | .setCurrent i x y ls =>
    { st with mapShelves := setShelfCurrent st.mapShelves i x y ls }
  | .pushShelfUpdate d =>
    { st with pageShelves := shelfUpdateHandler st.pageShelves d }
  | .pushShelfLocationUpdate d =>
    { st with pageShelves := shelfLocationUpdateHandler st.pageShelves d }

/-- Applies a sequence of shelf updates in arrival order. -/
def applyShelfEvents (st : ShelvesClientState) (es : List ShelfEvent) :
    ShelvesClientState :=
  es.foldl applyShelfEvent st

/-- First record with the given id in a Shelves page list. -/
def findById : List ShelfEntity → String → Option ShelfEntity
  | [], _ => none
  | s :: rest, i => if s.id = i then some s else findById rest i

/-- Storage coordinates of a shelf in the MapContext store. -/
def mapStorageOf (st : ShelvesClientState) (i : String) :
    Option Coordinates :=
  (mget st.mapShelves i).map (fun s => s.storage)

/-- Storage coordinate triple of a shelf in the Shelves page list. -/
def pageStorageOf (st : ShelvesClientState) (i : String) :
    Option (ℚ × ℚ × Option ℚ) :=
  (findById st.pageShelves i).map
    (fun s => (s.storage_x, s.storage_y, s.storage_yaw))

/-- Concrete Shelves page record for the C1 counterexample: storage at
100,150. -/
def c1Shelf : ShelfEntity :=
  { id := "s1"
    warehouse_id := "W1"
    level := 1
    current_x := some 100
    current_y := some 150
    current_yaw := some 0
    x := none
    y := none
    yaw := none
    storage_x := 100
    storage_y := 150
    storage_yaw := none
    location_status := some "STORED"
    last_task_id := none
    available := true
    status := "IDLE"
    april_tag_url := none
    april_tag_id := none
    deleted := none
    created_at := none
    updated_at := none }

/-- Combined state holding only the C1 shelf. -/
def c1State : ShelvesClientState :=
  { mapShelves := [], pageShelves := [c1Shelf] }

/-- Push payload addressed to s1 that carries a storage_x member, as the
generic shelf_update channel permits. -/
def c1Msg : ShelfUpdateMsg :=
  { id := some "s1", storage_x := some 999 }

/-- C1 counterexample: the claim states that storage is unchanged by every
sequence of setShelfCurrent, shelf_update and shelf_location_update
updates, but one shelf_update push whose payload carries storage_x moves
the s1 storage x coordinate from 100 to 999 through the generic spread
merge, with no setShelfStorage call involved. -/
theorem storage_immutability_counterexample :
    pageStorageOf c1State "s1" = some (100, 150, none) ∧
    pageStorageOf
        (applyShelfEvents c1State [ShelfEvent.pushShelfUpdate c1Msg])
        "s1" =
      some (999, 150, none) := by
  exact ⟨rfl, rfl⟩

/-- Predicate singling out the updates that carry no storage member:
setShelfCurrent and shelf_location_update structurally never touch
storage, and a shelf_update is harmless exactly when its payload has no
storage_x, storage_y or storage_yaw member. -/
def carriesNoStorageKeys : ShelfEvent → Prop
  | .pushShelfUpdate d =>
    d.storage_x = none ∧ d.storage_y = none ∧ d.storage_yaw = none
  | _ => True

instance instDecCarriesNoStorageKeys : DecidablePred carriesNoStorageKeys := by
  intro e
  cases e with
  | setCurrent i x y ls => exact inferInstanceAs (Decidable True)
  | pushShelfUpdate d => exact inferInstanceAs (Decidable (_ ∧ _ ∧ _))
  | pushShelfLocationUpdate d => exact inferInstanceAs (Decidable True)

/-- Helper: mget after mset reads the written value at the written key and
the previous value at every other key. -/
theorem mget_mset {α : Type} (m : StrMap α) (k j : String) (v : α) :
    mget (mset m k v) j = if k = j then some v else mget m j := by
  induction m with
  | nil => simp [mset, mget]
  | cons p rest ih =>
    obtain ⟨k₁, v₁⟩ := p
    by_cases hk : k₁ = k
    · subst hk
      by_cases hj : k₁ = j <;> simp [mset, mget, hj]
    · by_cases hj : k₁ = j
      · subst hj
        have hkj : ¬ (k = k₁) := fun h => hk h.symm
        simp [mset, mget, hk, hkj]
      · simp [mset, mget, hk, hj, ih]

/-- Helper: setShelfCurrent never changes the storage field of any shelf
in the MapContext store. -/
theorem setShelfCurrent_preserves_storage (m : StrMap ShelfMap)
    (i : String) (x y : ℚ) (ls : String) (j : String) :
    (mget (setShelfCurrent m i x y ls) j).map (fun s => s.storage) =
      (mget m j).map (fun s => s.storage) := by
  unfold setShelfCurrent
  cases hm : mget m i with
  | none => rfl
  | some sh =>
    rw [mget_mset]
    by_cases h : i = j
    · subst h
      rw [hm]
      simp
    · simp [h]

/-- Helper: the shelf_update spread merge leaves the storage triple of
every record unchanged when the payload carries no storage member. -/
theorem shelfUpdateHandler_preserves_storage (prev : List ShelfEntity)
    (d : ShelfUpdateMsg) (hx : d.storage_x = none) (hy : d.storage_y = none)
    (hw : d.storage_yaw = none) (i : String) :
    (findById (shelfUpdateHandler prev d) i).map
        (fun s => (s.storage_x, s.storage_y, s.storage_yaw)) =
      (findById prev i).map
        (fun s => (s.storage_x, s.storage_y, s.storage_yaw)) := by
  induction prev with
  | nil => rfl
  | cons s rest ih =>
    by_cases hd : d.id = some s.id
    · have hid : (spreadShelf s d).id = s.id := by simp [spreadShelf, hd]
      by_cases hi : s.id = i
      · simp [shelfUpdateHandler, findById, hd, hid, hi, spreadShelf,
          hx, hy, hw]
      · simp only [shelfUpdateHandler, List.map, if_pos hd, findById, hid,
          hi, if_neg]
        exact ih
    · by_cases hi : s.id = i
      · subst hi
        simp [shelfUpdateHandler, findById, if_neg hd]
      · simp only [shelfUpdateHandler, List.map, if_neg hd, findById, hi,
          if_neg]
        exact ih

/-- Helper: the shelf_location_update merge never changes the storage
triple of any record. -/
theorem shelfLocationUpdateHandler_preserves_storage
    (prev : List ShelfEntity) (d : ShelfLocMsg) (i : String) :
    (findById (shelfLocationUpdateHandler prev d) i).map
        (fun s => (s.storage_x, s.storage_y, s.storage_yaw)) =
      (findById prev i).map
        (fun s => (s.storage_x, s.storage_y, s.storage_yaw)) := by
  induction prev with
  | nil => rfl
  | cons s rest ih =>
    by_cases hd : d.id = some s.id
    · by_cases hi : s.id = i
      · simp [shelfLocationUpdateHandler, findById, hd, hi]
      · simp only [shelfLocationUpdateHandler, List.map, if_pos hd,
          findById, hi, if_neg]
        exact ih
    · by_cases hi : s.id = i
      · subst hi
        simp [shelfLocationUpdateHandler, findById, if_neg hd]
      · simp only [shelfLocationUpdateHandler, List.map, if_neg hd,
          findById, hi, if_neg]
        exact ih

/-- C1 amended: for every sequence of setShelfCurrent, shelf_update and
shelf_location_update updates in which no shelf_update payload carries a
storage_x, storage_y or storage_yaw member, the storage coordinates of
every shelf, in the MapContext store and the Shelves page list alike, are
unchanged; only the generic shelf_update spread merge can violate storage
immutability, and only through an explicit storage member of its
payload. -/
theorem storage_immutability_amended (st : ShelvesClientState)
    (es : List ShelfEvent) (hes : ∀ e ∈ es, carriesNoStorageKeys e)
    (i : String) :
    mapStorageOf (applyShelfEvents st es) i = mapStorageOf st i ∧
    pageStorageOf (applyShelfEvents st es) i = pageStorageOf st i := by
  induction es generalizing st with
  | nil => exact ⟨rfl, rfl⟩
  | cons e rest ih =>
    have he : carriesNoStorageKeys e := hes e (List.mem_cons_self e rest)
    have hrest : ∀ e₁ ∈ rest, carriesNoStorageKeys e₁ := fun e₁ h =>
      hes e₁ (List.mem_cons_of_mem e h)
    have step :
        mapStorageOf (applyShelfEvent st e) i = mapStorageOf st i ∧
        pageStorageOf (applyShelfEvent st e) i = pageStorageOf st i := by
      cases e with
      | setCurrent j x y ls =>
        exact ⟨setShelfCurrent_preserves_storage st.mapShelves j x y ls i,
          rfl⟩
      | pushShelfUpdate d =>
        obtain ⟨hx, hy, hw⟩ := he
        exact ⟨rfl,
          shelfUpdateHandler_preserves_storage st.pageShelves d hx hy hw i⟩
      | pushShelfLocationUpdate d =>
        exact ⟨rfl,
          shelfLocationUpdateHandler_preserves_storage st.pageShelves d i⟩
    have tail := ih (applyShelfEvent st e) hrest
    exact ⟨tail.1.trans step.1, tail.2.trans step.2⟩

/-- Three-update sequence without storage members, exercising all three
update paths of claim C1. -/
def c1BenignSeq : List ShelfEvent :=
  [ShelfEvent.setCurrent "s1" 500 500 "AT_DROP_ZONE",
   ShelfEvent.pushShelfUpdate { id := some "s1", status := some "BUSY" },
   ShelfEvent.pushShelfLocationUpdate
     { id := some "s1", current_x := some 7, current_y := some 8 }]

/-- Witness for the amended C1 on concrete inputs: the benign three-update
sequence leaves the s1 storage triple where it was. -/
theorem storage_immutability_amended_witness :
    mapStorageOf (applyShelfEvents c1State c1BenignSeq) "s1" =
        mapStorageOf c1State "s1" ∧
    pageStorageOf (applyShelfEvents c1State c1BenignSeq) "s1" =
        pageStorageOf c1State "s1" :=
  storage_immutability_amended c1State c1BenignSeq (by decide) "s1"

/-- Storage coordinates assembled by the ShelfDetailsPanel admin form;
the panel always provides all three numbers (yaw defaults to 0). -/
structure StorageCoords where
  storage_x : ℚ
  storage_y : ℚ
  storage_yaw : ℚ
deriving DecidableEq, Repr

/-- Modelled from the spec: the backend set-storage endpoint
(PUT /shelves/:id/storage, reached through mapApi.setShelfStorage) is not
part of this repository; per the external-interface section of the spec it
returns the updated entity, here with the storage coordinates replaced and
every other field, in particular current, unchanged. -/
def serverSetShelfStorage (shelf : ShelfMap) (c : StorageCoords) :
    ShelfMap :=
  { shelf with
    storage := ⟨c.storage_x, c.storage_y, some c.storage_yaw⟩ }

/-- ShelfDetailsPanel handleSetStorage: asks window.confirm (the confirmed
argument is the answer); when declined it returns before any call, leaving
the store untouched; when confirmed it sends the coordinates to the
set-storage endpoint and writes the returned entity into the MapContext
store via setShelf. -/
def handleSetStorage (confirmed : Bool) (store : StrMap ShelfMap)
    (shelf : ShelfMap) (coords : StorageCoords) : StrMap ShelfMap :=
  if confirmed then setShelf store (serverSetShelfStorage shelf coords)
  else store

/-- Form state of the Shelves page edit modal, matching the FormData
interface of the page. -/
structure ShelvesFormData where
  warehouse_id : String
  current_x : ℚ
  current_y : ℚ
  current_yaw : ℚ
  level : ℚ
  available : Bool
  status : String
  storage_x : Option ℚ
  storage_y : Option ℚ
  storage_yaw : Option ℚ
deriving DecidableEq, Repr

/-- Modelled from the spec: the backend setStorageLocation endpoint called
by the Shelves page (shelves.setStorageLocation) is not part of this
repository; per the spec it sets the shelf storage coordinates, leaving
the other fields unchanged. -/
def serverSetStorageLocation (shelf : ShelfEntity) (sx sy syaw : ℚ) :
    ShelfEntity :=
  { shelf with
    storage_x := sx
    storage_y := sy
    storage_yaw := some syaw }

/-- Step 3 of the Shelves page handleSubmit for an existing shelf: when
the form storage values differ from the record and both storage_x and
storage_y are provided, it calls shelves.setStorageLocation with the form
values; the yaw argument Number(storage_yaw) with a fall back of 0.0 on
falsy equals getD 0 on this model, and under the guard the other getD
defaults are unreachable. The flow contains no confirmation dialog: there
is no user answer it could consult. -/
def handleSubmitStorageStep (fd : ShelvesFormData)
    (editingShelf : ShelfEntity) : ShelfEntity :=
  if (fd.storage_x ≠ some editingShelf.storage_x ∨
        fd.storage_y ≠ some editingShelf.storage_y ∨
        fd.storage_yaw ≠ editingShelf.storage_yaw) ∧
      fd.storage_x ≠ none ∧ fd.storage_y ≠ none then
    serverSetStorageLocation editingShelf (fd.storage_x.getD 0)
      (fd.storage_y.getD 0) (fd.storage_yaw.getD 0)
  else editingShelf

/-- Shelf being edited in the C3 counterexample, with storage 100,150. -/
def c3Shelf : ShelfEntity :=
  { id := "s3"
    warehouse_id := "W1"
    level := 1
    current_x := some 100
    current_y := some 150
    current_yaw := some 0
    x := none
    y := none
    yaw := none
    storage_x := 100
    storage_y := 150
    storage_yaw := none
    location_status := some "STORED"
    last_task_id := none
    available := true
    status := "IDLE"
    april_tag_url := none
    april_tag_id := none
    deleted := none
    created_at := none
    updated_at := none }

/-- Edit-form contents moving the storage of s3 to 200,250. -/
def c3Form : ShelvesFormData :=
  { warehouse_id := "W1"
    current_x := 100
    current_y := 150
    current_yaw := 0
    level := 1
    available := true
    status := "IDLE"
    storage_x := some 200
    storage_y := some 250
    storage_yaw := none }

/-- C3 counterexample: the Shelves page edit-form submit path mutates the
shelf storage position (100,150 becomes 200,250) although it contains no
interactive confirmation step at all, so the claim that every
storage-mutating code path requires a confirmation step, aborting without
mutation when confirmation is not given, is false on this path. -/
theorem admin_storage_gate_counterexample :
    (handleSubmitStorageStep c3Form c3Shelf).storage_x = 200 ∧
    (handleSubmitStorageStep c3Form c3Shelf).storage_y = 250 ∧
    c3Shelf.storage_x = 100 ∧ c3Shelf.storage_y = 150 := by
  refine ⟨by decide, by decide, rfl, rfl⟩

/-- C3 amended: the ShelfDetailsPanel handleSetStorage path behaves as the
claim states: declining the window.confirm dialog aborts with the store
unchanged, and confirming writes the new storage coordinates while the
shelf current position is unaffected. The Shelves edit-form handleSubmit
path, however, mutates storage after form validation without any
interactive confirmation step. -/
theorem admin_storage_gate_amended (store : StrMap ShelfMap)
    (sh : ShelfMap) (coords : StorageCoords)
    (h : mget store sh.id = some sh) :
    handleSetStorage false store sh coords = store ∧
    (mget (handleSetStorage true store sh coords) sh.id).map
        (fun s => s.storage) =
      some ⟨coords.storage_x, coords.storage_y, some coords.storage_yaw⟩ ∧
    (mget (handleSetStorage true store sh coords) sh.id).map
        (fun s => s.current) =
      (mget store sh.id).map (fun s => s.current) := by
  refine ⟨rfl, ?_, ?_⟩
  · show (mget (setShelf store (serverSetShelfStorage sh coords))
        sh.id).map (fun s => s.storage) = _
    unfold setShelf serverSetShelfStorage
    rw [mget_mset]
    simp
  · show (mget (setShelf store (serverSetShelfStorage sh coords))
        sh.id).map (fun s => s.current) = _
    unfold setShelf serverSetShelfStorage
    rw [mget_mset]
    rw [h]
    simp

/-- ShelfMap shown in the details panel for the C3 witness. -/
def c3PanelShelf : ShelfMap := { scenarioShelfS1 with id := "SA" }

/-- Store holding the C3 witness shelf under its id. -/
def c3PanelStore : StrMap ShelfMap := [("SA", c3PanelShelf)]

/-- Witness for the amended C3 on concrete inputs: a store holding one
shelf, with the admin coordinates 200,250,0. -/
theorem admin_storage_gate_amended_witness :
    handleSetStorage false c3PanelStore c3PanelShelf ⟨200, 250, 0⟩ =
      c3PanelStore ∧
    (mget (handleSetStorage true c3PanelStore c3PanelShelf
          ⟨200, 250, 0⟩) "SA").map (fun s => s.storage) =
      some ⟨200, 250, some 0⟩ ∧
    (mget (handleSetStorage true c3PanelStore c3PanelShelf
          ⟨200, 250, 0⟩) "SA").map (fun s => s.current) =
      (mget c3PanelStore "SA").map (fun s => s.current) :=
  admin_storage_gate_amended c3PanelStore c3PanelShelf ⟨200, 250, 0⟩
    (by decide)

/-- Inbound telemetry payload as read by the Robots page handler: optional
identifier members and optional loosely typed numeric members. Identifier
members are modelled as strings, the only shape the backend emits. -/
structure TelemetryMsg where
  robot_id : Option String := none
  robot : Option String := none
  name : Option String := none
  id : Option String := none
  status : Option String := none
  x : Option Jsonic := none
  y : Option Jsonic := none
  yaw : Option Jsonic := none
  current_x : Option Jsonic := none
  current_y : Option Jsonic := none
  current_yaw : Option Jsonic := none
  cpu_usage : Option Jsonic := none
  ram_usage : Option Jsonic := none
  battery_level : Option Jsonic := none
  temperature : Option Jsonic := none
deriving DecidableEq, Repr

/-- Robot record of the Robots page list (typed any in the source):
identifier members optional, numeric members JsNumber where none stands
for a missing or NaN entry. -/
structure RobotsPageRobot where
  id : Option String
  robot_id : Option String
  name : Option String
  x : JsNumber
  y : JsNumber
  yaw : JsNumber
  current_x : JsNumber
  current_y : JsNumber
  current_yaw : JsNumber
  cpu_usage : JsNumber
  ram_usage : JsNumber
  battery_level : JsNumber
  temperature : JsNumber
  status : Option String
deriving DecidableEq, Repr

/-- Identity match of the Robots page telemetry handler, in source order:
robot_id against robot_id, robot and id, name against name, id against id.
Strict equality on two absent members is true, as JS === on two undefined
values is. -/
def telemetryMatches (r : RobotsPageRobot) (d : TelemetryMsg) : Bool :=
  r.robot_id = d.robot_id || r.robot_id = d.robot || r.name = d.name ||
    r.id = d.id || r.robot_id = d.id

/-- Model of the ternary pattern of the handler: a present member is
coerced with Number(), an absent member falls through. -/
def jsTern (member : Option Jsonic) (fallback : JsNumber) : JsNumber :=
  match member with
  | some v => jsNumber v
  | none => fallback

/-- Field update the Robots page telemetry handler applies to a matching
robot: position members prefer x over current_x through nested ternaries,
telemetry members update only when present, status keeps the old value
when absent. -/
def updateRobotFromTelemetry (r : RobotsPageRobot) (d : TelemetryMsg) :
    RobotsPageRobot :=
  { r with
    x := jsTern d.x (jsTern d.current_x r.x)
    y := jsTern d.y (jsTern d.current_y r.y)
    yaw := jsTern d.yaw (jsTern d.current_yaw r.yaw)
    current_x := jsTern d.x (jsTern d.current_x r.current_x)
    current_y := jsTern d.y (jsTern d.current_y r.current_y)
    current_yaw := jsTern d.yaw (jsTern d.current_yaw r.current_yaw)
    cpu_usage := jsTern d.cpu_usage r.cpu_usage
    ram_usage := jsTern d.ram_usage r.ram_usage
    battery_level := jsTern d.battery_level r.battery_level
    temperature := jsTern d.temperature r.temperature
    status := match d.status with
      | some s => some s
      | none => r.status }

/-- Robots page onTelemetry handler: maps the update over the list,
touching exactly the matching records. -/
def robotsTelemetryHandler (prev : List RobotsPageRobot)
    (d : TelemetryMsg) : List RobotsPageRobot :=
  prev.map (fun r =>
    if telemetryMatches r d then updateRobotFromTelemetry r d else r)

/-- Model of the JS delete operator on the document model: removes the
first entry with the key. -/
def mdel {α : Type} : StrMap α → String → StrMap α
  | [], _ => []
  | (k₁, v₁) :: rest, k =>
    if k₁ = k then rest else (k₁, v₁) :: mdel rest k

/-- Numeric keys list of sanitizeDoc in src/services/api.ts. -/
def numericKeys : List String :=
  ["x", "y", "yaw", "current_x", "current_y", "current_yaw", "target_x",
   "target_y", "priority", "storage_x", "storage_y", "storage_yaw"]

/-- One iteration of the numeric-coercion loop of sanitizeDoc: when the
key is present and not null, the value is coerced with Number() and
written back only when the coercion did not give NaN; otherwise the
document is left as it is, keeping the original value in place. -/
def sanitizeNumericStep (out : StrMap Jsonic) (k : String) :
    StrMap Jsonic :=
  match mget out k with
  | none => out
  | some v =>
    if v = Jsonic.jnull then out
    else
      match jsNumber v with
      | none => out
      | some n => mset out k (Jsonic.jnum n)

/-- Mongo-id renaming step of sanitizeDoc: a truthy _id member is copied
to id as a string and removed. -/
def sanitizeIdStep (doc : StrMap Jsonic) : StrMap Jsonic :=
  match mget doc "_id" with
  | none => doc
  | some v =>
    if jsTruthy v then mdel (mset doc "id" (Jsonic.jstr (jsToString v))) "_id"
    else doc

/-- sanitizeDoc of src/services/api.ts on the document model: the _id
renaming step followed by the numeric-coercion loop over numericKeys. The
non-object early return of the source is outside the model, which only
holds objects. -/
def sanitizeDoc (doc : StrMap Jsonic) : StrMap Jsonic :=
  numericKeys.foldl sanitizeNumericStep (sanitizeIdStep doc)

/-- Robot record for the C5 counterexample: robot r1 with a legitimate
non-zero position 5,6. -/
def c5Robot : RobotsPageRobot :=
  { id := some "r1"
    robot_id := some "r1"
    name := some "alpha"
    x := some 5
    y := some 6
    yaw := some 0
    current_x := some 5
    current_y := some 6
    current_yaw := some 0
    cpu_usage := some 10
    ram_usage := some 20
    battery_level := some 90
    temperature := some 30
    status := some "IDLE" }

/-- Telemetry payload for r1 whose x and y members are present but hold
the non-numeric string abc. -/
def c5Msg : TelemetryMsg :=
  { robot_id := some "r1"
    x := some (Jsonic.jstr "abc")
    y := some (Jsonic.jstr "abc") }

/-- C5 counterexample: the claim states that a non-numeric field is
dropped from the patch and never overwrites an existing position, but the
Robots telemetry handler guards only against undefined, so the present
non-numeric x and y members are coerced to NaN and overwrite the existing
position 5,6 of r1; and sanitizeDoc keeps a non-numeric value in place
instead of dropping the field. -/
theorem numeric_coercion_counterexample :
    robotsTelemetryHandler [c5Robot] c5Msg =
      [{ c5Robot with
          x := none, y := none, current_x := none, current_y := none }] ∧
    c5Robot.x = some 5 ∧ c5Robot.y = some 6 ∧
    mget (sanitizeDoc [("x", Jsonic.jstr "abc")]) "x" =
      some (Jsonic.jstr "abc") := by
  refine ⟨by decide, rfl, rfl, by decide⟩

/-- Helper: one numeric-coercion iteration leaves every entry whose value
does not parse (and is not null) exactly in place. -/
theorem sanitizeNumericStep_preserves (out : StrMap Jsonic) (k : String)
    (v : Jsonic) (hv : mget out k = some v) (_hnull : v ≠ Jsonic.jnull)
    (hnan : jsNumber v = none) (k₂ : String) :
    mget (sanitizeNumericStep out k₂) k = some v := by
  unfold sanitizeNumericStep
  cases h₂ : mget out k₂ with
  | none => exact hv
  | some w =>
    by_cases hw : w = Jsonic.jnull
    · simp only [if_pos hw]
      exact hv
    · simp only [if_neg hw]
      cases hjw : jsNumber w with
      | none => exact hv
      | some n =>
        rw [mget_mset]
        by_cases hkk : k₂ = k
        · subst hkk
          rw [hv] at h₂
          cases h₂
          rw [hjw] at hnan
          cases hnan
        · simp only [if_neg hkk]
          exact hv

/-- Helper: the whole numeric-coercion loop leaves an unparsable non-null
entry in place. -/
theorem sanitizeLoop_preserves (keys : List String) (out : StrMap Jsonic)
    (k : String) (v : Jsonic) (hv : mget out k = some v)
    (hnull : v ≠ Jsonic.jnull) (hnan : jsNumber v = none) :
    mget (keys.foldl sanitizeNumericStep out) k = some v := by
  induction keys generalizing out with
  | nil => exact hv
  | cons k₂ rest ih =>
    exact ih (sanitizeNumericStep out k₂)
      (sanitizeNumericStep_preserves out k v hv hnull hnan k₂)

/-- Helper: deleting one key leaves lookups of every other key
unchanged. -/
theorem mget_mdel {α : Type} (m : StrMap α) (j k : String) (h : j ≠ k) :
    mget (mdel m j) k = mget m k := by
  induction m with
  | nil => rfl
  | cons p rest ih =>
    obtain ⟨k₁, v₁⟩ := p
    by_cases h₁ : k₁ = j
    · subst h₁
      simp [mdel, mget, h]
    · by_cases hk : k₁ = k
      · subst hk
        simp [mdel, mget, h₁]
      · simp [mdel, mget, h₁, hk, ih]

/-- Helper: the _id renaming step leaves every key other than id and _id
unchanged. -/
theorem sanitizeIdStep_preserves (doc : StrMap Jsonic) (k : String)
    (h1 : k ≠ "id") (h2 : k ≠ "_id") :
    mget (sanitizeIdStep doc) k = mget doc k := by
  unfold sanitizeIdStep
  cases hid : mget doc "_id" with
  | none => rfl
  | some v =>
    by_cases ht : jsTruthy v
    · simp only [if_pos ht]
      have hidk : ("id" : String) ≠ k := fun hh => h1 hh.symm
      rw [mget_mdel _ _ _ (fun hh => h2 hh.symm), mget_mset, if_neg hidk]
    · simp only [if_neg ht]

/-- C5 amended: a coordinate member absent from the telemetry payload
leaves the stored position unchanged, and a present member that parses is
written as the parsed number; but a present non-numeric member is not
dropped: the telemetry merge coerces it with Number() and writes NaN over
the existing position, and sanitizeDoc keeps an unparsable non-null value
in place rather than unsetting the field. -/
theorem numeric_coercion_amended (r : RobotsPageRobot)
    (dmiss dnum dbad : TelemetryMsg) (vnum vbad : Jsonic) (qnum : ℚ)
    (doc : StrMap Jsonic) (k : String) (vdoc : Jsonic) :
    (dmiss.x = none → dmiss.current_x = none →
      (updateRobotFromTelemetry r dmiss).x = r.x) ∧
    (dnum.x = some vnum → jsNumber vnum = some qnum →
      (updateRobotFromTelemetry r dnum).x = some qnum) ∧
    (dbad.x = some vbad → jsNumber vbad = none →
      (updateRobotFromTelemetry r dbad).x = none) ∧
    (k ≠ "id" → k ≠ "_id" → mget doc k = some vdoc →
      vdoc ≠ Jsonic.jnull → jsNumber vdoc = none →
      mget (sanitizeDoc doc) k = some vdoc) := by
  refine ⟨?_, ?_, ?_, ?_⟩
  · intro h1 h2
    simp [updateRobotFromTelemetry, jsTern, h1, h2]
  · intro h1 h2
    simp [updateRobotFromTelemetry, jsTern, h1, h2]
  · intro h1 h2
    simp [updateRobotFromTelemetry, jsTern, h1, h2]
  · intro h1 h2 h3 h4 h5
    unfold sanitizeDoc
    exact sanitizeLoop_preserves numericKeys (sanitizeIdStep doc) k vdoc
      ((sanitizeIdStep_preserves doc k h1 h2).trans h3) h4 h5

/-- Witness for the amended C5 on concrete inputs: an empty payload leaves
the r1 position alone, the numeric string 7 parses and is written, the
string abc gives NaN, and sanitizeDoc keeps the unparsable y value of a
concrete document. -/
theorem numeric_coercion_amended_witness :
    (updateRobotFromTelemetry c5Robot {}).x = c5Robot.x ∧
    (updateRobotFromTelemetry c5Robot
        { robot_id := some "r1", x := some (Jsonic.jstr "7") }).x =
      some 7 ∧
    (updateRobotFromTelemetry c5Robot c5Msg).x = none ∧
    mget (sanitizeDoc [("y", Jsonic.jstr "abc")]) "y" =
      some (Jsonic.jstr "abc") := by
  obtain ⟨h1, h2, h3, h4⟩ :=
    numeric_coercion_amended c5Robot {}
      { robot_id := some "r1", x := some (Jsonic.jstr "7") } c5Msg
      (Jsonic.jstr "7") (Jsonic.jstr "abc") 7
      [("y", Jsonic.jstr "abc")] "y" (Jsonic.jstr "abc")
  exact ⟨h1 rfl rfl, h2 rfl (by decide), h3 rfl (by decide),
    h4 (by decide) (by decide) rfl (by decide) (by decide)⟩

/-- Callback as registered with the dispatch registry of
src/services/websocket.ts: invoking it on a payload either succeeds or
throws an exception, carried as an error message. -/
def Cb (P : Type) : Type := P → Except String Unit

/-- Outcome of invoking one callback under the try/catch of
invokeCallbacks: either a normal return or a caught and logged
exception. -/
inductive CbOutcome where
  | ok
  | caught (e : String)
deriving DecidableEq, Repr

/-- Runs one callback under the per-callback try/catch: an exception is
caught and logged, never rethrown. -/
def runCaught {P : Type} (cb : Cb P) (d : P) : CbOutcome :=
  match cb d with
  | .ok _ => .ok
  | .error e => .caught e

/-- invokeCallbacks of src/services/websocket.ts: iterates over the
callbacks registered for the event and invokes each inside its own
try/catch. The return type has no exception constructor, so no exception
can propagate to the caller of the dispatch. -/
def invokeCallbacks {P : Type} : List (Cb P) → P → List CbOutcome
  | [], _ => []
  | cb :: rest, d => runCaught cb d :: invokeCallbacks rest d

/-- Dispatch for a named event over a callback registry, as the socket
event listeners call it. -/
def invokeCallbacksFor {P : Type} (registry : String → List (Cb P))
    (eventName : String) (d : P) : List CbOutcome :=
  invokeCallbacks (registry eventName) d

/-- C7: for every event name and registry, dispatch invokes every
registered callback exactly once in order, with each exception caught in
place: even when a callback in the middle throws, the callbacks before
and after it still run, and the dispatch returns outcomes rather than
propagating the exception. -/
theorem event_dispatch_isolation {P : Type}
    (registry : String → List (Cb P)) (eventName : String) (d : P)
    (cbs₁ cbs₂ : List (Cb P)) (cb : Cb P) :
    invokeCallbacksFor registry eventName d =
      (registry eventName).map (fun c => runCaught c d) ∧
    invokeCallbacks (cbs₁ ++ cb :: cbs₂) d =
      invokeCallbacks cbs₁ d ++ runCaught cb d :: invokeCallbacks cbs₂ d := by
  constructor
  · unfold invokeCallbacksFor
    induction registry eventName with
    | nil => rfl
    | cons c rest ih => simp [invokeCallbacks, ih]
  · induction cbs₁ with
    | nil => rfl
    | cons c rest ih => simp [invokeCallbacks, ih]

/-- isDifferent of ShelfDetailsPanel.tsx: strict inequality of the current
and storage x and y coordinates, with no tolerance. -/
def isDifferent (shelf : ShelfMap) : Bool :=
  decide (shelf.current.x ≠ shelf.storage.x) ||
    decide (shelf.current.y ≠ shelf.storage.y)

/-- Rendering guard of the Restore button in ShelfDetailsPanel.tsx: shown
when the storage form is closed and the shelf differs from storage. -/
def restoreShown (showStorageForm : Bool) (shelf : ShelfMap) : Bool :=
  !showStorageForm && isDifferent shelf

/-- Follows the claim wording, for comparison with the source definition
isDifferent: at storage means current equals storage within a small
positive epsilon on both coordinates. -/
def isAtStorageWithinEps (eps : ℚ) (shelf : ShelfMap) : Bool :=
  decide (|shelf.current.x - shelf.storage.x| ≤ eps ∧
    |shelf.current.y - shelf.storage.y| ≤ eps)

/-- Shelf whose current position differs from storage by one
thousandth. -/
def c8Shelf : ShelfMap :=
  { id := "s8"
    warehouse_id := "W1"
    storage := ⟨100, 150, none⟩
    current := ⟨100 + 1 / 1000, 150, none⟩
    location_status := "STORED"
    available := true
    status := "IDLE" }

/-- C8 counterexample: the claim states the at-storage fact is computed
within a small epsilon rather than by exact equality, but for a shelf one
thousandth away from storage the code treats it as different and offers
the Restore button, although current equals storage within the epsilon
one hundredth (and any larger one): the code compares exactly. -/
theorem isAtStorage_epsilon_counterexample :
    isDifferent c8Shelf = true ∧
    restoreShown false c8Shelf = true ∧
    isAtStorageWithinEps (1 / 100) c8Shelf = true := by
  refine ⟨?_, ?_, ?_⟩ <;>
    simp [isDifferent, restoreShown, isAtStorageWithinEps, c8Shelf] <;>
    rw [abs_of_nonneg (by norm_num)] <;> norm_num

/-- C8 amended: the derived at-storage fact is computed by exact equality
of the current and storage x and y coordinates, with no epsilon, and with
the storage form closed the Restore affordance is rendered exactly when
the shelf is not at storage under that exact comparison. -/
theorem isAtStorage_exact_amended (shelf : ShelfMap) :
    restoreShown false shelf = true ↔
      (shelf.current.x ≠ shelf.storage.x ∨
        shelf.current.y ≠ shelf.storage.y) := by
  simp [restoreShown, isDifferent]

/-- BASE_RECONNECT_DELAY of useTaskSocket: one second. -/
def BASE_RECONNECT_DELAY : ℕ := 1000

/-- getReconnectDelay of useTaskSocket in src/hooks/useData.ts:
exponential in the reconnect count, capped at 30000 milliseconds. -/
def getReconnectDelay (reconnectCount : ℕ) : ℕ :=
  min (BASE_RECONNECT_DELAY * 2 ^ reconnectCount) 30000

/-- C9: the reconnect delay equals min of 1000 times 2 to the attempt
count and 30000, never exceeds 30000 ms, and is monotonically
non-decreasing in the attempt count. -/
theorem reconnect_backoff_capped (n : ℕ) :
    getReconnectDelay n = min (1000 * 2 ^ n) 30000 ∧
    getReconnectDelay n ≤ 30000 ∧
    ∀ m, n ≤ m → getReconnectDelay n ≤ getReconnectDelay m := by
  refine ⟨rfl, min_le_right _ _, ?_⟩
  intro m hnm
  unfold getReconnectDelay BASE_RECONNECT_DELAY
  exact min_le_min
    (Nat.mul_le_mul_left 1000 (Nat.pow_le_pow_right (by norm_num) hnm))
    le_rfl

/-- Witness for C9 on concrete inputs: attempts 3 and 4. -/
theorem reconnect_backoff_capped_witness :
    getReconnectDelay 3 = min (1000 * 2 ^ 3) 30000 ∧
    getReconnectDelay 3 ≤ 30000 ∧
    getReconnectDelay 3 ≤ getReconnectDelay 4 :=
  ⟨(reconnect_backoff_capped 3).1, (reconnect_backoff_capped 3).2.1,
    (reconnect_backoff_capped 3).2.2 4 (by decide)⟩

/-- Socket.io client options passed by connectWebSocket of
src/services/websocket.ts. -/
structure SocketOptions where
  reconnection : Bool
  reconnectionDelay : ℕ
  reconnectionDelayMax : ℕ
  timeoutMs : ℕ
deriving DecidableEq, Repr

/-- Handle of an open socket.io connection: the url it was opened
against, the options, and the event names whose handlers connectWebSocket
registered on it with socket.on. -/
structure SocketHandle where
  url : String
  options : SocketOptions
  handlerEvents : List String
deriving DecidableEq, Repr

/-- Module state of src/services/websocket.ts: the singleton socket
variable, none while disconnected. -/
structure WsModuleState where
  socket : Option SocketHandle
deriving DecidableEq, Repr

/-- Event names connectWebSocket registers handlers for, in registration
order. -/
def wsHandlerEvents : List String :=
  ["connect", "disconnect", "connect_error", "reconnect_attempt",
   "telemetry", "map_update", "robot_status", "task_status", "error",
   "task_update", "robot_update", "shelf_update", "shelf_location_update",
   "robot_position_update", "task_progress_update", "system_update"]

/-- Socket produced by the io() call of connectWebSocket, with the
options of the source and all handlers registered. -/
def newWsSocket (url : String) : SocketHandle :=
  { url := url
    options :=
      { reconnection := true
        reconnectionDelay := 500
        reconnectionDelayMax := 5000
        timeoutMs := 20000 }
    handlerEvents := wsHandlerEvents }

/-- connectWebSocket of src/services/websocket.ts: when the module socket
already exists it is returned as is with no further effect; otherwise a
new socket is opened against the url (a parameter here, as the source
reads it from the environment), the handlers are registered and the
socket is stored in the module state. -/
def connectWebSocket (url : String) (st : WsModuleState) :
    SocketHandle × WsModuleState :=
  match st.socket with
  | some s => (s, st)
  | none =>
    let s := newWsSocket url
    (s, { socket := some s })

/-- C10: calling connectWebSocket twice is the same as calling it once:
the second call returns exactly the socket object of the first and leaves
the module state unchanged, so no new connection is opened and no handler
is re-registered. -/
theorem connectWebSocket_idempotent (url : String) (st : WsModuleState) :
    connectWebSocket url (connectWebSocket url st).2 =
      connectWebSocket url st := by
  cases h : st.socket with
  | some s => simp [connectWebSocket, h]
  | none => simp [connectWebSocket, h]
